import Mathlib

/-!
Verification development for the Library_graphql repository.

The definitions below are a shallow embedding of the Python sources:
  * `library/schema.py` — the `CreateBook.mutate` mutation and the
    `Query.resolve_search_books` resolver;
  * `add_books.py` — the CLI/CSV import client.

The Django entity store is modelled as a list of `Book` records that is
threaded through each operation explicitly; store reads and writes performed
by an operation are recorded in an explicit operation trace so that claims
about "no store access" are statable.
-/

namespace LibraryGraphql

/-- A calendar date, the result of `datetime.date.fromisoformat`. -/
structure Date where
  year : Nat
  month : Nat
  day : Nat
deriving DecidableEq, Repr

/-- The `Book` model from `library/models.py`: title, author, published_date,
isbn_number, pages, optional cover_image, language. -/
structure Book where
  title : String
  author : String
  published_date : Date
  isbn_number : String
  pages : Int
  cover_image : Option String
  language : String
deriving DecidableEq, Repr

/-- The payload of the `CreateBook` mutation: `book`, `ok`, `errors`. -/
structure CreateBookResult where
  book : Option Book
  ok : Bool
  errors : List String
deriving DecidableEq, Repr

/-- A single access to the entity store: the uniqueness-check read or the
`Book.objects.create` write. -/
inductive StoreOp where
  | read (isbn_number : String)
  | write (b : Book)
deriving DecidableEq, Repr

/-- Result of running the mutation: the returned payload, the store after the
call, and the trace of store accesses the call performed. -/
structure MutateOutcome where
  result : CreateBookResult
  store : List Book
  ops : List StoreOp
deriving DecidableEq, Repr

def isbnError : String := "ISBN must be 10 or 13 digits."

def dateError : String := "published_date must be in YYYY-MM-DD format."

def duplicateError : String := "Book with this ISBN already exists."

/-- Numeric value of an ASCII digit character. -/
def digitVal (c : Char) : Nat := c.toNat - 48

/-- The ASCII digit character for a value below ten. -/
def digitChar (n : Nat) : Char := Char.ofNat (48 + n)

/-- Gregorian leap-year rule used by `datetime.date`. -/
def isLeapYear (y : Nat) : Bool := y % 4 = 0 && (y % 100 ≠ 0 || y % 400 = 0)

/-- Number of days in a month, as `datetime.date` validates the day field. -/
def daysInMonth (y m : Nat) : Nat :=
  if m = 2 then (if isLeapYear y then 29 else 28)
  else if m = 4 || m = 6 || m = 9 || m = 11 then 30
  else 31

/-- The function `datetime.date.fromisoformat`, in its documented strict
`YYYY-MM-DD` form (the form the mutation docstring demands): exactly ten characters, four
ASCII digits for the year, a dash, two digits for the month, a dash, two
digits for the day, with month in 1..12, day in range for the month, and
year at least `datetime.MINYEAR = 1`.  Any other string raises, modelled as
`none`. -/
def date_fromisoformat (s : String) : Option Date :=
  match s.data with
  | [y1, y2, y3, y4, c1, m1, m2, c2, d1, d2] =>
    if y1.isDigit && y2.isDigit && y3.isDigit && y4.isDigit && c1 = '-' &&
        m1.isDigit && m2.isDigit && c2 = '-' && d1.isDigit && d2.isDigit then
      let y := 1000 * digitVal y1 + 100 * digitVal y2 + 10 * digitVal y3 + digitVal y4
      let m := 10 * digitVal m1 + digitVal m2
      let d := 10 * digitVal d1 + digitVal d2
      if 1 ≤ y ∧ 1 ≤ m ∧ m ≤ 12 ∧ 1 ≤ d ∧ d ≤ daysInMonth y m then
        some ⟨y, m, d⟩
      else none
    else none
  | _ => none

/-- Does the character list consist of exactly 10 or exactly 13 ASCII
digits?  This is the language of the regex body without the `$` quirk. -/
def isbnDigits10or13 (l : List Char) : Bool :=
  l.all Char.isDigit && (l.length = 10 || l.length = 13)

/-- Python `re.match` with the pattern from `schema.py` line 107 (ten digits
optionally followed by three more, anchored on both sides).  In Python the
`$` anchor also matches just before a newline at the very end of the string,
so a trailing `'\n'` after the digits is accepted as well; `\d` is modelled
as the ASCII digit class. -/
def isbn_regex_match (s : String) : Bool :=
  isbnDigits10or13 s.data ||
    (match s.data.getLast? with
     | some c => c = '\n' && isbnDigits10or13 s.data.dropLast
     | none => false)

/-- The error list accumulated by the two validation checks at the top of
`CreateBook.mutate` (ISBN check first, then the date parse). -/
def validation_errors (isbn_number published_date : String) : List String :=
  (if isbn_regex_match isbn_number then [] else [isbnError]) ++
    (if (date_fromisoformat published_date).isSome then [] else [dateError])

/-- The mutation `CreateBook.mutate` from `library/schema.py`: validate the ISBN and the
published date; on any validation error return the failure payload without
touching the store; otherwise check the store for an existing book with the
same `isbn_number` (a read), failing with the duplicate message if found;
otherwise create the book (a write appending it to the store). -/
def createBook_mutate (store : List Book) (title author published_date isbn_number : String)
    (pages : Int) (language : String) (cover_image : Option String) : MutateOutcome :=
  if (validation_errors isbn_number published_date).isEmpty then
    match date_fromisoformat published_date with
    | some pub_date =>
      if store.any (fun b => b.isbn_number == isbn_number) then
        ⟨⟨none, false, [duplicateError]⟩, store, [StoreOp.read isbn_number]⟩
      else
        ⟨⟨some ⟨title, author, pub_date, isbn_number, pages, cover_image, language⟩, true, []⟩,
          store ++ [⟨title, author, pub_date, isbn_number, pages, cover_image, language⟩],
          [StoreOp.read isbn_number,
            StoreOp.write ⟨title, author, pub_date, isbn_number, pages, cover_image, language⟩]⟩
    | none => ⟨⟨none, false, validation_errors isbn_number published_date⟩, store, []⟩
  else ⟨⟨none, false, validation_errors isbn_number published_date⟩, store, []⟩

/-- Characters kept by the sanitization regex `[^a-zA-Z0-9\s]` in
`resolve_search_books`: ASCII letters, ASCII digits, and the whitespace
class. -/
def pyIsSpace (c : Char) : Bool :=
  c = ' ' || c = '\t' || c = '\n' || c = '\r' || c = '\x0b' || c = '\x0c'

def sanitizeChar (c : Char) : Bool := c.isAlpha || c.isDigit || pyIsSpace c

/-- The `re.sub` sanitization step: drop every character that is not an
ASCII letter, digit, or whitespace. -/
def sanitize (q : String) : String := ⟨q.data.filter sanitizeChar⟩

/-- Is `needle` a contiguous substring of the second list?  This is the
containment semantics of the SQL LIKE pattern that Django `icontains`
compiles to, on already-lowercased operands. -/
def listContains (needle : List Char) : List Char → Bool
  | [] => needle.isEmpty
  | c :: rest => needle.isPrefixOf (c :: rest) || listContains needle rest

/-- Lower-casing of a character list, as SQL `LOWER` applies to each
character (basic latin letters). -/
def lowerList (l : List Char) : List Char := l.map Char.toLower

/-- The Django `icontains` field lookup: case-insensitive substring test. -/
def icontains (field q : String) : Bool :=
  listContains (lowerList q.data) (lowerList field.data)

/-- The row predicate of the `Q(...) | Q(...) | Q(...) | Q(...)` filter in
`resolve_search_books`. -/
def bookMatches (q : String) (b : Book) : Bool :=
  icontains b.title q || icontains b.author q || icontains b.isbn_number q ||
    icontains b.language q

/-- Result of the search resolver: the returned books together with whether
the resolver issued a store query at all (`Book.objects.none()` does not). -/
structure SearchResult where
  books : List Book
  store_accessed : Bool
deriving DecidableEq, Repr

/-- The resolver `Query.resolve_search_books` from `library/schema.py`: falsy (empty)
query returns no rows with no store access; then sanitize, and an empty
sanitized query likewise returns no rows with no store access; otherwise
filter the store by the four-field case-insensitive disjunction and apply
`.distinct()`, modelled as row deduplication. -/
def resolve_search_books (store : List Book) (query : String) : SearchResult :=
  if query = "" then ⟨[], false⟩
  else if sanitize query = "" then ⟨[], false⟩
  else ⟨(store.filter (bookMatches (sanitize query))).dedup, true⟩

/-!
Embedding of the import client `add_books.py`.  The GraphQL endpoint is an
external collaborator: the network round trip is a parameter mapping the
posted variables to a response.  JSON values carry the Python truthiness
used by the response checks; an operation that would raise an uncaught
exception (an attribute access on a non-dict) is modelled as `none`.
-/

/-- A JSON value, as returned by `r.json()` in `post_book`. -/
inductive Json where
  | null
  | bool (b : Bool)
  | str (s : String)
  | num (n : Int)
  | arr (elems : List Json)
  | obj (fields : List (String × Json))

/-- Python truthiness of a JSON value. -/
def truthy : Json → Bool
  | Json.null => false
  | Json.bool b => b
  | Json.str s => s ≠ ""
  | Json.num n => n != 0
  | Json.arr l => !l.isEmpty
  | Json.obj l => !l.isEmpty

/-- Lookup of a key in a JSON object field list (first match wins, as dict
keys are unique). -/
def jlookup (k : String) : List (String × Json) → Option Json
  | [] => none
  | p :: rest => if p.1 = k then some p.2 else jlookup k rest

/-- The variables dictionary posted with the CreateBook mutation. -/
structure Vars where
  title : Option String
  author : Option String
  publishedDate : Option String
  isbnNumber : Option String
  pages : Option Int
  coverImage : Option String
  language : Option String
deriving DecidableEq, Repr

/-- One network round trip: a connection error, a non-JSON body, or a JSON
body. -/
inductive NetResult where
  | networkError (msg : String)
  | nonJson (text : String)
  | jsonBody (j : Json)

/-- The function `post_book` from `add_books.py`: wrap a connection failure
as a dict with key `network_error`, a non-JSON body as a dict with key
`non_json_response`, and otherwise return the parsed JSON body. -/
def post_book (net : Vars → NetResult) (v : Vars) : Json :=
  match net v with
  | NetResult.networkError e => Json.obj [("network_error", Json.str e)]
  | NetResult.nonJson t => Json.obj [("non_json_response", Json.str t)]
  | NetResult.jsonBody j => j

/-- The success check shared by `add_single` and `import_csv`: the response
must be a dict containing a truthy data entry whose createBook entry
(defaulting to an empty dict) has a truthy ok entry.  Returns `none` when
the Python expression would raise (a dict lookup on a truthy non-dict
value). -/
def createBookOk (resp : Json) : Option Bool :=
  match resp with
  | Json.obj fields =>
    match jlookup "data" fields with
    | none => some false
    | some d =>
      if truthy d then
        match d with
        | Json.obj dfields =>
          match (jlookup "createBook" dfields).getD (Json.obj []) with
          | Json.obj cbfields => some (truthy ((jlookup "ok" cbfields).getD Json.null))
          | _ => none
        | _ => none
      else some false
  | _ => some false

/-- The function `add_single` from `add_books.py`: post the single record
and exit 0 when the response indicates success, 1 otherwise (`none` models
a crash on a malformed response). -/
def add_single (net : Vars → NetResult) (v : Vars) : Option Nat :=
  (createBookOk (post_book net v)).map (fun ok => if ok then 0 else 1)

/-- A CSV row as produced by `csv.DictReader`: an association of header
names to cell strings. -/
def Row := List (String × String)

/-- Python `row.get(k)`. -/
def rowGet (r : Row) (k : String) : Option String :=
  (r.find? (fun p => p.1 == k)).map (fun p => p.2)

/-- The Python `or` between two maybe-absent strings: the first operand when
it is truthy (present and non-empty), otherwise the second. -/
def pyOrStr : Option String → Option String → Option String
  | some s, b => if s = "" then b else some s
  | none, b => b

/-- Python `int(s)` for the pages cell, modelled for strings of an optional
sign followed by ASCII digits; any other form raises, modelled `none`. -/
def pyInt (s : String) : Option Int :=
  match s.data with
  | '-' :: rest =>
    if rest.isEmpty || !rest.all Char.isDigit then none
    else some (-(Int.ofNat (rest.foldl (fun acc c => 10 * acc + digitVal c) 0)))
  | '+' :: rest =>
    if rest.isEmpty || !rest.all Char.isDigit then none
    else some (Int.ofNat (rest.foldl (fun acc c => 10 * acc + digitVal c) 0))
  | l =>
    if l.isEmpty || !l.all Char.isDigit then none
    else some (Int.ofNat (l.foldl (fun acc c => 10 * acc + digitVal c) 0))

/-- The header-synonym mapping of `import_csv` building the mutation
variables from one CSV row.  A missing or empty pages cell defaults to 0;
a non-numeric pages cell raises in `int(...)`, modelled `none`. -/
def rowVars (r : Row) : Option Vars :=
  (match pyOrStr (rowGet r "pages") none with
   | none => some (0 : Int)
   | some s => pyInt s).map
    (fun pg =>
      ⟨pyOrStr (rowGet r "title") (rowGet r "Title"),
       pyOrStr (rowGet r "author") (rowGet r "Author"),
       pyOrStr (pyOrStr (rowGet r "published_date") (rowGet r "publishedDate"))
         (rowGet r "PublishedDate"),
       pyOrStr (pyOrStr (rowGet r "isbn_number") (rowGet r "isbn")) (rowGet r "ISBN"),
       some pg,
       pyOrStr (pyOrStr (rowGet r "cover_image") (rowGet r "coverImage")) none,
       pyOrStr (pyOrStr (rowGet r "language") (rowGet r "Language")) (some "Unknown")⟩)

/-- Outcome of posting one CSV row: build the variables and test the
response, `none` when either step raises. -/
def rowOk (net : Vars → NetResult) (r : Row) : Option Bool :=
  (rowVars r).bind (fun v => createBookOk (post_book net v))

/-- The row loop of `import_csv`, carrying the failure count and the number
of network calls made so far; at the end exit 0 when no row failed, else
exit 2. -/
def csvImportRows (net : Vars → NetResult) : List Row → Nat → Nat → Option (Nat × Nat)
  | [], failures, calls => some ((if failures = 0 then 0 else 2), calls)
  | r :: rest, failures, calls =>
    match rowVars r with
    | none => none
    | some v =>
      match createBookOk (post_book net v) with
      | none => none
      | some ok => csvImportRows net rest (if ok then failures else failures + 1) (calls + 1)

/-- The function `import_csv` from `add_books.py`, returning the exit code
paired with the number of network calls made. -/
def csvImportExit (net : Vars → NetResult) (rows : List Row) : Option (Nat × Nat) :=
  csvImportRows net rows 0 0

/-- The parsed command line of `add_books.py`. -/
structure Args where
  title : Option String
  author : Option String
  published_date : Option String
  isbn : Option String
  pages : Option Int
  cover_image : Option String
  language : Option String
  csv : Option (List Row)

/-- The required-field check of `main`: any of the six single-record fields
still `None` after argument parsing. -/
def requiredMissing (a : Args) : Bool :=
  a.title.isNone || a.author.isNone || a.published_date.isNone || a.isbn.isNone ||
    a.pages.isNone || a.language.isNone

/-- The function `main` from `add_books.py`: with `--csv` run the CSV row
loop; otherwise exit 3 before any network call when a required field is
missing, else post the single record.  The result pairs the exit code with
the number of network calls made. -/
def main_exit (net : Vars → NetResult) (a : Args) : Option (Nat × Nat) :=
  match a.csv with
  | some rows => csvImportExit net rows
  | none =>
    if requiredMissing a then some (3, 0)
    else
      (add_single net
        ⟨a.title, a.author, a.published_date, a.isbn, a.pages, a.cover_image, a.language⟩).map
        (fun code => (code, 1))

/-!
Specification-side characterisation of the strict date format, used to state
the date-validation claim without restating the parser.
-/

/-- Zero-padded strict ISO rendering of a year, month, day triple. -/
def isoFormat (y m d : Nat) : String :=
  ⟨[digitChar (y / 1000 % 10), digitChar (y / 100 % 10), digitChar (y / 10 % 10),
    digitChar (y % 10), '-', digitChar (m / 10 % 10), digitChar (m % 10), '-',
    digitChar (d / 10 % 10), digitChar (d % 10)]⟩

/-- A string is a calendar date in strict `YYYY-MM-DD` form: it is the
zero-padded rendering of an in-range year, month and day. -/
def IsStrictIsoDate (s : String) : Prop :=
  ∃ y m d : Nat, 1 ≤ y ∧ y ≤ 9999 ∧ 1 ≤ m ∧ m ≤ 12 ∧ 1 ≤ d ∧ d ≤ daysInMonth y m ∧
    s = isoFormat y m d

theorem isDigit_iff_toNat (c : Char) : c.isDigit = true ↔ 48 ≤ c.toNat ∧ c.toNat ≤ 57 := by
  simp only [Char.isDigit, Bool.and_eq_true, decide_eq_true_eq, ge_iff_le,
    UInt32.le_def, BitVec.le_def, Char.toNat, UInt32.toNat]
  exact Iff.rfl

theorem digitChar_isDigit {n : Nat} (h : n < 10) : (digitChar n).isDigit = true := by
  interval_cases n <;> decide

theorem digitVal_digitChar {n : Nat} (h : n < 10) : digitVal (digitChar n) = n := by
  interval_cases n <;> decide

theorem digitVal_lt_ten {c : Char} (h : c.isDigit = true) : digitVal c < 10 := by
  obtain ⟨h1, h2⟩ := (isDigit_iff_toNat c).mp h
  unfold digitVal
  omega

theorem digitChar_digitVal {c : Char} (h : c.isDigit = true) : digitChar (digitVal c) = c := by
  obtain ⟨h1, h2⟩ := (isDigit_iff_toNat c).mp h
  have hv : 48 + digitVal c = c.toNat := by unfold digitVal; omega
  unfold digitChar
  rw [hv, Char.ofNat_toNat]

theorem daysInMonth_le_31 (y m : Nat) : daysInMonth y m ≤ 31 := by
  unfold daysInMonth
  split_ifs <;> omega

theorem date_fromisoformat_isoFormat {y m d : Nat} (hy1 : 1 ≤ y) (hy2 : y ≤ 9999)
    (hm1 : 1 ≤ m) (hm2 : m ≤ 12) (hd1 : 1 ≤ d) (hd2 : d ≤ daysInMonth y m) :
    date_fromisoformat (isoFormat y m d) = some ⟨y, m, d⟩ := by
  have ten : (0 : Nat) < 10 := by omega
  have hdig : ∀ k : Nat, (digitChar (k % 10)).isDigit = true :=
    fun k => digitChar_isDigit (Nat.mod_lt _ ten)
  have hdv : ∀ k : Nat, digitVal (digitChar (k % 10)) = k % 10 :=
    fun k => digitVal_digitChar (Nat.mod_lt _ ten)
  unfold isoFormat date_fromisoformat
  dsimp only
  rw [if_pos]; rotate_left
  · simp [hdig]
  simp only [hdv]
  have h31 : daysInMonth y m ≤ 31 := daysInMonth_le_31 y m
  have hy : 1000 * (y / 1000 % 10) + 100 * (y / 100 % 10) + 10 * (y / 10 % 10) + y % 10 = y := by
    omega
  have hm : 10 * (m / 10 % 10) + m % 10 = m := by omega
  have hd : 10 * (d / 10 % 10) + d % 10 = d := by omega
  rw [hy, hm, hd, if_pos (⟨hy1, hm1, hm2, hd1, hd2⟩ :
    1 ≤ y ∧ 1 ≤ m ∧ m ≤ 12 ∧ 1 ≤ d ∧ d ≤ daysInMonth y m)]

theorem date_fromisoformat_some {s : String} {dt : Date}
    (h : date_fromisoformat s = some dt) :
    1 ≤ dt.year ∧ dt.year ≤ 9999 ∧ 1 ≤ dt.month ∧ dt.month ≤ 12 ∧ 1 ≤ dt.day ∧
      dt.day ≤ daysInMonth dt.year dt.month ∧ s = isoFormat dt.year dt.month dt.day := by
  obtain ⟨l⟩ := s
  rcases l with _ | ⟨y1, _ | ⟨y2, _ | ⟨y3, _ | ⟨y4, _ | ⟨c1, _ | ⟨m1, _ | ⟨m2, _ | ⟨c2,
    _ | ⟨d1, _ | ⟨d2, _ | ⟨e, rest⟩⟩⟩⟩⟩⟩⟩⟩⟩⟩⟩ <;> try exact Option.noConfusion h
  unfold date_fromisoformat at h
  dsimp only at h
  split at h; rotate_left
  · exact Option.noConfusion h
  rename_i hb
  split at h; rotate_left
  · exact Option.noConfusion h
  rename_i hrange
  simp only [Bool.and_eq_true, decide_eq_true_eq] at hb
  obtain ⟨⟨⟨⟨⟨⟨⟨⟨⟨hy1, hy2⟩, hy3⟩, hy4⟩, hc1⟩, hm1⟩, hm2⟩, hc2⟩, hd1⟩, hd2⟩ := hb
  obtain ⟨hr1, hr2, hr3, hr4, hr5⟩ := hrange
  obtain ⟨Y, M, D⟩ := dt
  simp only [Option.some.injEq, Date.mk.injEq] at h
  obtain ⟨hY, hM, hD⟩ := h
  subst hY; subst hM; subst hD
  dsimp only
  have v1 := digitVal_lt_ten hy1
  have v2 := digitVal_lt_ten hy2
  have v3 := digitVal_lt_ten hy3
  have v4 := digitVal_lt_ten hy4
  have w1 := digitVal_lt_ten hm1
  have w2 := digitVal_lt_ten hm2
  have u1 := digitVal_lt_ten hd1
  have u2 := digitVal_lt_ten hd2
  subst hc1
  subst hc2
  refine ⟨hr1, by omega, hr2, hr3, hr4, hr5, ?_⟩
  unfold isoFormat
  have ey : ∀ k : Nat, k = 1000 * digitVal y1 + 100 * digitVal y2 + 10 * digitVal y3 + digitVal y4 →
      digitChar (k / 1000 % 10) = y1 ∧ digitChar (k / 100 % 10) = y2 ∧
      digitChar (k / 10 % 10) = y3 ∧ digitChar (k % 10) = y4 := by
    rintro k rfl
    have e1 : (1000 * digitVal y1 + 100 * digitVal y2 + 10 * digitVal y3 + digitVal y4) / 1000 % 10 =
        digitVal y1 := by omega
    have e2 : (1000 * digitVal y1 + 100 * digitVal y2 + 10 * digitVal y3 + digitVal y4) / 100 % 10 =
        digitVal y2 := by omega
    have e3 : (1000 * digitVal y1 + 100 * digitVal y2 + 10 * digitVal y3 + digitVal y4) / 10 % 10 =
        digitVal y3 := by omega
    have e4 : (1000 * digitVal y1 + 100 * digitVal y2 + 10 * digitVal y3 + digitVal y4) % 10 =
        digitVal y4 := by omega
    rw [e1, e2, e3, e4, digitChar_digitVal hy1, digitChar_digitVal hy2,
      digitChar_digitVal hy3, digitChar_digitVal hy4]
    exact ⟨rfl, rfl, rfl, rfl⟩
  obtain ⟨f1, f2, f3, f4⟩ := ey _ rfl
  have em1 : (10 * digitVal m1 + digitVal m2) / 10 % 10 = digitVal m1 := by omega
  have em2 : (10 * digitVal m1 + digitVal m2) % 10 = digitVal m2 := by omega
  have ed1 : (10 * digitVal d1 + digitVal d2) / 10 % 10 = digitVal d1 := by omega
  have ed2 : (10 * digitVal d1 + digitVal d2) % 10 = digitVal d2 := by omega
  rw [f1, f2, f3, f4, em1, em2, ed1, ed2, digitChar_digitVal hm1, digitChar_digitVal hm2,
    digitChar_digitVal hd1, digitChar_digitVal hd2]

theorem date_fromisoformat_isSome_iff (s : String) :
    (date_fromisoformat s).isSome = true ↔ IsStrictIsoDate s := by
  constructor
  · intro h
    obtain ⟨dt, hdt⟩ := Option.isSome_iff_exists.mp h
    obtain ⟨h1, h2, h3, h4, h5, h6, h7⟩ := date_fromisoformat_some hdt
    exact ⟨dt.year, dt.month, dt.day, h1, h2, h3, h4, h5, h6, h7⟩
  · rintro ⟨y, m, d, h1, h2, h3, h4, h5, h6, rfl⟩
    rw [date_fromisoformat_isoFormat h1 h2 h3 h4 h5 h6]
    rfl

theorem isbn_regex_match_iff (s : String) :
    isbn_regex_match s = true ↔
      (isbnDigits10or13 s.data = true ∨
        ∃ u : String, s = u ++ "\n" ∧ isbnDigits10or13 u.data = true) := by
  obtain ⟨l⟩ := s
  induction l using List.reverseRecOn with
  | nil =>
    constructor
    · intro h
      exact absurd h (by decide)
    · rintro (h | ⟨u, hu, hdig⟩)
      · exact absurd h (by decide)
      · have hdata := congrArg String.data hu
        simp only [String.data_append] at hdata
        exact absurd hdata (by simp)
  | append_singleton l c _ =>
    unfold isbn_regex_match
    rw [List.getLast?_concat, List.dropLast_concat]
    simp only [Bool.or_eq_true, Bool.and_eq_true, decide_eq_true_eq]
    constructor
    · rintro (h | ⟨rfl, hdig⟩)
      · exact Or.inl h
      · refine Or.inr ⟨⟨l⟩, String.ext ?_, hdig⟩
        simp [String.data_append]
    · rintro (h | ⟨u, hu, hdig⟩)
      · exact Or.inl h
      · have hdata := congrArg String.data hu
        simp only [String.data_append] at hdata
        have hc : c = '\n' := by
          have hge := congrArg List.getLast? hdata
          rw [List.getLast?_concat, List.getLast?_concat] at hge
          exact Option.some.inj hge
        have hl : l = u.data := by
          have hdl := congrArg List.dropLast hdata
          rw [List.dropLast_concat, List.dropLast_concat] at hdl
          exact hdl
        exact Or.inr ⟨hc, hl ▸ hdig⟩

theorem isPrefixOf_eq_true_iff (n h : List Char) :
    n.isPrefixOf h = true ↔ ∃ t, h = n ++ t := by
  induction n generalizing h with
  | nil =>
    simp [List.isPrefixOf]
  | cons a as ih =>
    cases h with
    | nil =>
      simp [List.isPrefixOf]
    | cons b bs =>
      simp only [List.isPrefixOf, Bool.and_eq_true, beq_iff_eq, ih, List.cons_append,
        List.cons.injEq]
      constructor
      · rintro ⟨rfl, t, rfl⟩
        exact ⟨t, rfl, rfl⟩
      · rintro ⟨t, rfl, rfl⟩
        exact ⟨rfl, t, rfl⟩

theorem listContains_iff (n h : List Char) :
    listContains n h = true ↔ ∃ s t, h = s ++ n ++ t := by
  induction h with
  | nil =>
    simp only [listContains, List.isEmpty_iff]
    constructor
    · rintro rfl
      exact ⟨[], [], rfl⟩
    · rintro ⟨s, t, hst⟩
      exact (List.append_eq_nil.mp (List.append_eq_nil.mp hst.symm).1).2
  | cons c rest ih =>
    simp only [listContains, Bool.or_eq_true, isPrefixOf_eq_true_iff, ih]
    constructor
    · rintro (⟨t, ht⟩ | ⟨s, t, hst⟩)
      · exact ⟨[], t, by simpa using ht⟩
      · exact ⟨c :: s, t, by simp [hst]⟩
    · rintro ⟨s, t, hst⟩
      cases s with
      | nil =>
        left
        exact ⟨t, by simpa using hst⟩
      | cons x xs =>
        right
        simp only [List.cons_append, List.cons.injEq] at hst
        exact ⟨xs, t, hst.2⟩

/-- Case-insensitive substring containment, the semantics of the Django
`icontains` lookup used by the search resolver. -/
def CaseInsensitiveSubstr (q f : String) : Prop :=
  ∃ s t, lowerList f.data = s ++ lowerList q.data ++ t

theorem icontains_iff (f q : String) : icontains f q = true ↔ CaseInsensitiveSubstr q f :=
  listContains_iff (lowerList q.data) (lowerList f.data)

theorem isbnError_ne_dateError : isbnError ≠ dateError := by decide

theorem isbnError_ne_duplicateError : isbnError ≠ duplicateError := by decide

theorem dateError_ne_duplicateError : dateError ≠ duplicateError := by decide

/-- C1 (amended): for every creation call, the validation reports the error
message for the ISBN if and only if the isbn_number string is not a string
of exactly 10 or exactly 13 digits optionally followed by a single trailing
newline character (the Python end-of-string anchor also matches just before
a final newline). -/
theorem C1_isbn_error_iff (store : List Book) (title author published_date isbn_number : String)
    (pages : Int) (language : String) (cover_image : Option String) :
    isbnError ∈
        (createBook_mutate store title author published_date isbn_number pages language
          cover_image).result.errors ↔
      ¬ (isbnDigits10or13 isbn_number.data = true ∨
          ∃ u : String, isbn_number = u ++ "\n" ∧ isbnDigits10or13 u.data = true) := by
  rw [← isbn_regex_match_iff]
  unfold createBook_mutate validation_errors
  cases h1 : isbn_regex_match isbn_number
  · cases h2 : date_fromisoformat published_date <;> simp [isbnError_ne_dateError]
  · cases h2 : date_fromisoformat published_date
    · simp [isbnError_ne_dateError]
    · cases h3 : store.any (fun b => b.isbn_number == isbn_number) <;>
        simp [isbnError_ne_duplicateError]

/-- C1 witness: a nine-digit string is rejected; by the amended
characterisation it is neither 10-or-13 digits nor such a string followed by
a newline. -/
theorem C1_witness :
    ¬ (isbnDigits10or13 (String.data "123456789") = true ∨
        ∃ u : String, "123456789" = u ++ "\n" ∧ isbnDigits10or13 u.data = true) :=
  (C1_isbn_error_iff [] "T" "A" "2021-01-01" "123456789" 1 "en" none).mp (by decide)

/-- C1 counterexample: the string of ten digits followed by a newline is not
composed of exactly 10 or 13 digits, yet the creation operation reports no
ISBN error for it — the whole validation passes and the record is created
with the newline embedded in the stored isbn_number. -/
theorem C1_counterexample :
    isbnDigits10or13 (String.data "1234567890\n") = false ∧
    (createBook_mutate [] "T" "A" "2021-01-01" "1234567890\n" 1 "en" none).result.errors = [] ∧
    (createBook_mutate [] "T" "A" "2021-01-01" "1234567890\n" 1 "en" none).result.ok = true := by
  refine ⟨by decide, by decide, by decide⟩

/-- C2: for every creation call, the validation reports the error message
for the published date if and only if the published_date string is not a
calendar date in strict YYYY-MM-DD form. -/
theorem C2_date_error_iff (store : List Book) (title author published_date isbn_number : String)
    (pages : Int) (language : String) (cover_image : Option String) :
    dateError ∈
        (createBook_mutate store title author published_date isbn_number pages language
          cover_image).result.errors ↔
      ¬ IsStrictIsoDate published_date := by
  rw [← date_fromisoformat_isSome_iff]
  unfold createBook_mutate validation_errors
  cases h1 : isbn_regex_match isbn_number
  · cases h2 : date_fromisoformat published_date <;>
      simp [Ne.symm isbnError_ne_dateError]
  · cases h2 : date_fromisoformat published_date
    · simp
    · cases h3 : store.any (fun b => b.isbn_number == isbn_number) <;>
        simp [dateError_ne_duplicateError]

/-- C2 witness: the out-of-range date from the claim triggers the date
error, hence is not a strict ISO date; conversely the in-range example
parses. -/
theorem C2_witness : ¬ IsStrictIsoDate "2021-13-40" :=
  (C2_date_error_iff [] "T" "A" "2021-13-40" "1234567890" 1 "en" none).mp (by decide)

/-- C7: when the ISBN check and the date parse both fail in the same call,
the returned errors sequence carries both messages (ISBN first), the store
is untouched and no store access happens. -/
theorem C7_both_errors (store : List Book) (title author published_date isbn_number : String)
    (pages : Int) (language : String) (cover_image : Option String)
    (h1 : isbn_regex_match isbn_number = false)
    (h2 : date_fromisoformat published_date = none) :
    createBook_mutate store title author published_date isbn_number pages language cover_image =
      ⟨⟨none, false, [isbnError, dateError]⟩, store, []⟩ := by
  unfold createBook_mutate validation_errors
  rw [h1, h2]
  simp

/-- C7 witness: a concrete call with an invalid ISBN and an invalid date
returns both messages and leaves the empty store empty with no accesses. -/
theorem C7_witness :
    createBook_mutate [] "T" "A" "01/01/2021" "12-34" 1 "en" none =
      ⟨⟨none, false, [isbnError, dateError]⟩, [], []⟩ :=
  C7_both_errors [] "T" "A" "01/01/2021" "12-34" 1 "en" none (by decide) (by decide)

/-- C5: on a call whose ISBN and date pass validation and whose isbn_number
matches no stored book, the mutation returns ok with the created record and
empty errors, and appends exactly that one record to the store (one read
then one write). -/
theorem C5_success (store : List Book) (title author published_date isbn_number : String)
    (pages : Int) (language : String) (cover_image : Option String) (pub : Date)
    (h1 : isbn_regex_match isbn_number = true)
    (h2 : date_fromisoformat published_date = some pub)
    (h3 : store.any (fun b => b.isbn_number == isbn_number) = false) :
    createBook_mutate store title author published_date isbn_number pages language cover_image =
      ⟨⟨some ⟨title, author, pub, isbn_number, pages, cover_image, language⟩, true, []⟩,
        store ++ [⟨title, author, pub, isbn_number, pages, cover_image, language⟩],
        [StoreOp.read isbn_number,
          StoreOp.write ⟨title, author, pub, isbn_number, pages, cover_image, language⟩]⟩ := by
  unfold createBook_mutate validation_errors
  rw [h1, h2, h3]
  simp

/-- C5 witness: the end-to-end success example from the specification. -/
theorem C5_witness :
    createBook_mutate [] "1984" "Orwell" "1949-06-08" "9780451524935" 328 "English" none =
      ⟨⟨some ⟨"1984", "Orwell", ⟨1949, 6, 8⟩, "9780451524935", 328, none, "English"⟩, true, []⟩,
        [⟨"1984", "Orwell", ⟨1949, 6, 8⟩, "9780451524935", 328, none, "English"⟩],
        [StoreOp.read "9780451524935",
          StoreOp.write ⟨"1984", "Orwell", ⟨1949, 6, 8⟩, "9780451524935", 328, none, "English"⟩]⟩ :=
  C5_success [] "1984" "Orwell" "1949-06-08" "9780451524935" 328 "English" none ⟨1949, 6, 8⟩
    (by decide) (by decide) (by decide)

/-- Is the store operation a write? -/
def isWrite : StoreOp → Bool
  | StoreOp.write _ => true
  | StoreOp.read _ => false

/-- C3: the creation operation writes only in the success path: a
validation failure returns the failure payload with the validation messages
and no store access at all; after validation passes, a duplicate ISBN
returns the duplicate failure having performed only the uniqueness read;
every call performs at most one write; and every failure result leaves the
store unchanged with zero writes. -/
theorem C3_store_writes (store : List Book) (title author published_date isbn_number : String)
    (pages : Int) (language : String) (cover_image : Option String) :
    (validation_errors isbn_number published_date ≠ [] →
      createBook_mutate store title author published_date isbn_number pages language cover_image =
        ⟨⟨none, false, validation_errors isbn_number published_date⟩, store, []⟩) ∧
    (validation_errors isbn_number published_date = [] →
      store.any (fun b => b.isbn_number == isbn_number) = true →
      (createBook_mutate store title author published_date isbn_number pages language
          cover_image).result = ⟨none, false, [duplicateError]⟩ ∧
      (createBook_mutate store title author published_date isbn_number pages language
          cover_image).ops = [StoreOp.read isbn_number]) ∧
    (createBook_mutate store title author published_date isbn_number pages language
        cover_image).ops.countP isWrite ≤ 1 ∧
    ((createBook_mutate store title author published_date isbn_number pages language
        cover_image).result.ok = false →
      (createBook_mutate store title author published_date isbn_number pages language
          cover_image).store = store ∧
      (createBook_mutate store title author published_date isbn_number pages language
          cover_image).ops.countP isWrite = 0) := by
  unfold createBook_mutate validation_errors
  cases h1 : isbn_regex_match isbn_number
  · cases h2 : date_fromisoformat published_date <;>
      simp [isWrite, List.countP_cons, List.countP_nil]
  · cases h2 : date_fromisoformat published_date
    · simp [isWrite, List.countP_cons, List.countP_nil]
    · cases h3 : store.any (fun b => b.isbn_number == isbn_number) <;>
        simp [isWrite, List.countP_cons, List.countP_nil]

/-- C3 witness: a concrete validation failure returns the failure payload
and touches the store in no way. -/
theorem C3_witness :
    createBook_mutate [] "T" "A" "2021-01-01" "badisbn" 1 "en" none =
      ⟨⟨none, false, validation_errors "badisbn" "2021-01-01"⟩, [], []⟩ :=
  (C3_store_writes [] "T" "A" "2021-01-01" "badisbn" 1 "en" none).1 (by decide)

theorem countP_isbn_le_one (l : List Book) (x : String)
    (h : l.Pairwise (fun a b => a.isbn_number ≠ b.isbn_number)) :
    l.countP (fun b => b.isbn_number == x) ≤ 1 := by
  induction l with
  | nil => simp
  | cons a t ih =>
    rw [List.pairwise_cons] at h
    rw [List.countP_cons]
    by_cases hx : a.isbn_number = x
    · have htz : t.countP (fun b => b.isbn_number == x) = 0 := by
        rw [List.countP_eq_zero]
        intro b hb
        simp only [beq_iff_eq]
        intro hbx
        exact h.1 b hb (by rw [hx, hbx])
      simp [htz, hx]
    · have := ih h.2
      simp [hx]
      omega

/-- C4 (amended): over a store whose books carry pairwise distinct ISBNs, a
creation call whose isbn_number already belongs to a stored book and whose
isbn_number and published_date pass validation returns exactly the
duplicate-ISBN failure and keeps the record count for that ISBN at one; and
after any creation call the distinct-ISBN invariant still holds. -/
theorem C4_uniqueness (store : List Book) (title author published_date isbn_number : String)
    (pages : Int) (language : String) (cover_image : Option String)
    (hinv : store.Pairwise (fun a b => a.isbn_number ≠ b.isbn_number)) :
    ((∃ b ∈ store, b.isbn_number = isbn_number) →
      isbn_regex_match isbn_number = true →
      (date_fromisoformat published_date).isSome = true →
      (createBook_mutate store title author published_date isbn_number pages language
          cover_image).result = ⟨none, false, [duplicateError]⟩ ∧
      (createBook_mutate store title author published_date isbn_number pages language
          cover_image).store.countP (fun b => b.isbn_number == isbn_number) = 1) ∧
    (createBook_mutate store title author published_date isbn_number pages language
        cover_image).store.Pairwise (fun a b => a.isbn_number ≠ b.isbn_number) := by
  constructor
  · rintro ⟨b0, hb0, hisbn⟩ h1 h2
    obtain ⟨pub, hpub⟩ := Option.isSome_iff_exists.mp h2
    have hany : store.any (fun b => b.isbn_number == isbn_number) = true :=
      List.any_eq_true.mpr ⟨b0, hb0, by simp [hisbn]⟩
    have hle := countP_isbn_le_one store isbn_number hinv
    have hpos : 0 < store.countP (fun b => b.isbn_number == isbn_number) :=
      List.countP_pos_iff.mpr ⟨b0, hb0, by simp [hisbn]⟩
    unfold createBook_mutate validation_errors
    rw [h1, hpub, hany]
    simp
    omega
  · unfold createBook_mutate validation_errors
    cases h1 : isbn_regex_match isbn_number
    · cases h2 : date_fromisoformat published_date <;> simpa using hinv
    · cases h2 : date_fromisoformat published_date
      · simpa using hinv
      · cases h3 : store.any (fun b => b.isbn_number == isbn_number)
        · simp only [Option.isSome_some, List.isEmpty_nil, List.nil_append,
            eq_self_iff_true, if_true, Bool.false_eq_true, if_false]
          rw [List.pairwise_append]
          refine ⟨hinv, List.pairwise_singleton _ _, ?_⟩
          intro a ha b hb
          rw [List.mem_singleton] at hb
          subst hb
          intro hcontra
          have hmem : store.any (fun b => b.isbn_number == isbn_number) = true :=
            List.any_eq_true.mpr ⟨a, ha, by simp [hcontra]⟩
          rw [h3] at hmem
          exact Bool.noConfusion hmem
        · simpa using hinv

/-- C4 witness: after a successful creation, a second attempt with the same
ISBN and different other fields fails with the duplicate message and the
count of records with that ISBN stays one. -/
theorem C4_witness :
    (createBook_mutate [⟨"1984", "Orwell", ⟨1949, 6, 8⟩, "1234567890123", 328, none, "English"⟩]
        "Other" "Someone" "2000-12-31" "1234567890123" 5 "fr" none).result =
      ⟨none, false, [duplicateError]⟩ ∧
    (createBook_mutate [⟨"1984", "Orwell", ⟨1949, 6, 8⟩, "1234567890123", 328, none, "English"⟩]
        "Other" "Someone" "2000-12-31" "1234567890123" 5 "fr" none).store.countP
      (fun b => b.isbn_number == "1234567890123") = 1 :=
  (C4_uniqueness [⟨"1984", "Orwell", ⟨1949, 6, 8⟩, "1234567890123", 328, none, "English"⟩]
      "Other" "Someone" "2000-12-31" "1234567890123" 5 "fr" none (by simp)).1
    ⟨⟨"1984", "Orwell", ⟨1949, 6, 8⟩, "1234567890123", 328, none, "English"⟩, by simp, rfl⟩
    (by decide) (by decide)

/-- C4 counterexample: the claim as stated quantifies over all other fields
of the creation call; with a stored book carrying the same ISBN but a
malformed published_date in the new call, the operation returns the
date-validation failure, not the duplicate-ISBN failure payload. -/
theorem C4_counterexample :
    ([(⟨"1984", "Orwell", ⟨1949, 6, 8⟩, "1234567890123", 328, none, "English"⟩ : Book)].Pairwise
        (fun a b => a.isbn_number ≠ b.isbn_number)) ∧
    (⟨"1984", "Orwell", ⟨1949, 6, 8⟩, "1234567890123", 328, none, "English"⟩ : Book).isbn_number =
      "1234567890123" ∧
    (createBook_mutate [⟨"1984", "Orwell", ⟨1949, 6, 8⟩, "1234567890123", 328, none, "English"⟩]
        "Other" "Someone" "2021-13-40" "1234567890123" 5 "fr" none).result.errors =
      [dateError] ∧
    dateError ≠ duplicateError := by
  refine ⟨by simp, rfl, by decide, by decide⟩

/-- C6: the search resolver returns the empty sequence with no store access
for an empty query or a query whose sanitization is empty; otherwise it
queries the store and returns exactly the deduplicated set of stored books
in which the sanitized query is a case-insensitive substring of title,
author, isbn_number or language, each matching book at most once. -/
theorem C6_search_semantics (store : List Book) (query : String) :
    (query = "" → resolve_search_books store query = ⟨[], false⟩) ∧
    (sanitize query = "" → resolve_search_books store query = ⟨[], false⟩) ∧
    (query ≠ "" → sanitize query ≠ "" →
      (resolve_search_books store query).store_accessed = true ∧
      (resolve_search_books store query).books.Nodup ∧
      ∀ b : Book, b ∈ (resolve_search_books store query).books ↔
        b ∈ store ∧ (CaseInsensitiveSubstr (sanitize query) b.title ∨
          CaseInsensitiveSubstr (sanitize query) b.author ∨
          CaseInsensitiveSubstr (sanitize query) b.isbn_number ∨
          CaseInsensitiveSubstr (sanitize query) b.language)) := by
  refine ⟨?_, ?_, ?_⟩
  · intro h
    simp [resolve_search_books, h]
  · intro h
    unfold resolve_search_books
    by_cases hq : query = ""
    · simp [hq]
    · simp [hq, h]
  · intro hq hs
    unfold resolve_search_books
    rw [if_neg hq, if_neg hs]
    refine ⟨rfl, List.nodup_dedup _, ?_⟩
    intro b
    rw [List.mem_dedup, List.mem_filter]
    unfold bookMatches
    simp only [Bool.or_eq_true, icontains_iff, or_assoc]

/-- C6 witness: a punctuation-only query yields the empty result sequence
with no store access even over a non-empty store. -/
theorem C6_witness :
    resolve_search_books
      [⟨"Dune", "Herbert", ⟨1965, 8, 1⟩, "1234567890", 412, none, "English"⟩] "!!!" =
      ⟨[], false⟩ :=
  (C6_search_semantics [⟨"Dune", "Herbert", ⟨1965, 8, 1⟩, "1234567890", 412, none, "English"⟩]
      "!!!").2.1 (by decide)

theorem toLower_eq_of_pyIsSpace {c : Char} (h : pyIsSpace c = true) : c.toLower = c := by
  simp only [pyIsSpace, Bool.or_eq_true, decide_eq_true_eq] at h
  rcases h with ((((h | h) | h) | h) | h) | h <;> subst h <;> decide

theorem sanitize_eq_self_of_whitespace {q : String} (h : ∀ c ∈ q.data, pyIsSpace c = true) :
    sanitize q = q := by
  apply String.ext
  show q.data.filter sanitizeChar = q.data
  rw [List.filter_eq_self]
  intro c hc
  simp [sanitizeChar, h c hc]

theorem lowerList_append (a b : List Char) :
    lowerList (a ++ b) = lowerList a ++ lowerList b := by
  simp [lowerList]

/-- C9: a non-empty query consisting only of whitespace is not
short-circuited: it sanitizes to itself, the store is queried, and every
stored book containing that whitespace string in title, author, isbn_number
or language is among the results. -/
theorem C9_whitespace_query (store : List Book) (query : String)
    (hne : query ≠ "") (hws : ∀ c ∈ query.data, pyIsSpace c = true) :
    sanitize query = query ∧
    (resolve_search_books store query).store_accessed = true ∧
    ∀ b ∈ store,
      ((∃ s t, b.title.data = s ++ query.data ++ t) ∨
        (∃ s t, b.author.data = s ++ query.data ++ t) ∨
        (∃ s t, b.isbn_number.data = s ++ query.data ++ t) ∨
        (∃ s t, b.language.data = s ++ query.data ++ t)) →
      b ∈ (resolve_search_books store query).books := by
  have hsan : sanitize query = query := sanitize_eq_self_of_whitespace hws
  have hlq : lowerList query.data = query.data := by
    unfold lowerList
    calc query.data.map Char.toLower = query.data.map id :=
          List.map_congr_left (fun a ha => toLower_eq_of_pyIsSpace (hws a ha))
    _ = query.data := List.map_id _
  have hsub : ∀ f : String, (∃ s t, f.data = s ++ query.data ++ t) → icontains f query = true := by
    rintro f ⟨s, t, hf⟩
    rw [icontains_iff]
    refine ⟨lowerList s, lowerList t, ?_⟩
    rw [hlq, hf, lowerList_append, lowerList_append, hlq]
  have hsne : ¬ (sanitize query = "") := by
    rw [hsan]
    exact hne
  refine ⟨hsan, ?_, ?_⟩
  · unfold resolve_search_books
    rw [if_neg hne, if_neg hsne]
  · intro b hb hdisj
    unfold resolve_search_books
    rw [if_neg hne, if_neg hsne]
    dsimp only
    rw [List.mem_dedup, List.mem_filter]
    refine ⟨hb, ?_⟩
    unfold bookMatches
    rw [hsan]
    rcases hdisj with h | h | h | h <;> simp [hsub _ h]

/-- C9 witness: the single-space query returns the stored book whose title
contains a space. -/
theorem C9_witness :
    (⟨"A B", "C", ⟨2000, 1, 1⟩, "1234567890", 1, none, "en"⟩ : Book) ∈
      (resolve_search_books [⟨"A B", "C", ⟨2000, 1, 1⟩, "1234567890", 1, none, "en"⟩]
        " ").books :=
  (C9_whitespace_query [⟨"A B", "C", ⟨2000, 1, 1⟩, "1234567890", 1, none, "en"⟩] " "
      (by decide) (by decide)).2.2 _ (by simp)
    (Or.inl ⟨['A'], ['B'], by decide⟩)

/-- C10: the sanitization step is idempotent — sanitizing an already
sanitized query string returns it unchanged. -/
theorem C10_sanitize_idempotent (q : String) : sanitize (sanitize q) = sanitize q := by
  apply String.ext
  show (q.data.filter sanitizeChar).filter sanitizeChar = q.data.filter sanitizeChar
  rw [List.filter_filter]
  simp [Bool.and_self]

theorem csvImportRows_eq (net : Vars → NetResult) (rows : List Row) (f c : Nat)
    (hall : ∀ r ∈ rows, (rowOk net r).isSome = true) :
    csvImportRows net rows f c =
      some ((if f = 0 ∧ ∀ r ∈ rows, rowOk net r = some true then 0 else 2),
        c + rows.length) := by
  induction rows generalizing f c with
  | nil =>
    simp [csvImportRows]
  | cons r rest ih =>
    have hr := hall r (by simp)
    obtain ⟨ok, hok⟩ := Option.isSome_iff_exists.mp hr
    have hrest : ∀ r' ∈ rest, (rowOk net r').isSome = true :=
      fun r' hrm => hall r' (by simp [hrm])
    have hok' := hok
    unfold rowOk at hok'
    obtain ⟨v, hv, hcb⟩ : ∃ v, rowVars r = some v ∧ createBookOk (post_book net v) = some ok := by
      cases hrv : rowVars r with
      | none => rw [hrv] at hok'; exact Option.noConfusion hok'
      | some v => rw [hrv] at hok'; exact ⟨v, rfl, hok'⟩
    unfold csvImportRows
    rw [hv]
    dsimp only
    rw [hcb]
    dsimp only
    rw [ih _ _ hrest]
    simp only [Option.some.injEq, Prod.mk.injEq]
    refine ⟨?_, by rw [List.length_cons]; omega⟩
    cases ok
    · simp [List.forall_mem_cons, hok]
    · simp [List.forall_mem_cons, hok]

/-- C8: the importer signals outcomes through its exit code — 3 with zero
network calls when a required single-record field is missing; the
single-record path exits 0 on a success response and 1 on a failure
response, after exactly one call; the CSV path, over rows whose processing
completes normally, exits 0 when every row succeeded and 2 when at least
one row failed, after one call per row. -/
theorem C8_exit_codes (net : Vars → NetResult) (a : Args) (rows : List Row) :
    (a.csv = none → requiredMissing a = true → main_exit net a = some (3, 0)) ∧
    (a.csv = none → requiredMissing a = false →
      ∀ ok : Bool,
        createBookOk (post_book net
            ⟨a.title, a.author, a.published_date, a.isbn, a.pages, a.cover_image, a.language⟩) =
          some ok →
        main_exit net a = some ((if ok then 0 else 1), 1)) ∧
    (a.csv = some rows → (∀ r ∈ rows, (rowOk net r).isSome = true) →
      main_exit net a =
        some ((if ∀ r ∈ rows, rowOk net r = some true then 0 else 2), rows.length)) := by
  refine ⟨?_, ?_, ?_⟩
  · intro hcsv hmiss
    unfold main_exit
    rw [hcsv]
    dsimp only
    rw [hmiss]
    simp
  · intro hcsv hmiss ok hok
    unfold main_exit add_single
    rw [hcsv]
    dsimp only
    rw [hmiss]
    simp [hok]
  · intro hcsv hall
    unfold main_exit csvImportExit
    rw [hcsv]
    dsimp only
    rw [csvImportRows_eq net rows 0 0 hall]
    simp

/-- C8 witness: with no CSV argument and no single-record arguments, the
tool exits 3 with zero network calls, whatever the network would have
answered. -/
theorem C8_witness :
    main_exit (fun _ => NetResult.networkError "unreachable")
      ⟨none, none, none, none, none, none, none, none⟩ = some (3, 0) :=
  (C8_exit_codes (fun _ => NetResult.networkError "unreachable")
      ⟨none, none, none, none, none, none, none, none⟩ []).1 rfl (by decide)

end LibraryGraphql
